import Mathlib

/-!
Verification development for the Vellum app-icon generator
(`generate_icon.py`).  The script builds a `size × size` RGBA raster:
a vertical sepia gradient, a rounded-corner alpha mask, a translucent
white panel, a white closed-book glyph (cover plus four page-edge
strokes) and a spine-indent stroke, composited in that order, and then
exports the raster together with a fixed `Contents.json` manifest.

The embedding below models pixels and images exactly, with all the
`int(size * c)` computations of the script carried out as exact
integer divisions (the script's float products are exact at every
point the theorems evaluate).  The Pillow drawing primitives the
script delegates to are modelled pixel-wise: a filled rounded
rectangle contains a pixel when the pixel lies in the bounding box and
inside the corner disks on the corner squares; a vertical stroke of
width `w` covers the `w` columns centred on its abscissa; alpha
compositing is the standard straight-alpha "over" operator (every
division performed by a theorem below is exact, so rounding-mode
differences with the library are immaterial).
-/

/-- An RGBA pixel; channels are integers in `[0, 255]`. -/
structure Pixel where
  r : ℕ
  g : ℕ
  b : ℕ
  a : ℕ
deriving DecidableEq

/-- The fully transparent pixel. -/
def clearPx : Pixel := ⟨0, 0, 0, 0⟩

/-- An in-memory raster: dimensions plus a pixel function. -/
structure Image where
  width : ℕ
  height : ℕ
  pix : ℕ → ℕ → Pixel

/-- Membership of the pixel `(x, y)` in a filled rounded rectangle with
bounding box `[x0, x1] × [y0, y1]` and corner radius `r`: inside the
box, and inside the quarter disk whenever the pixel lies in one of the
four corner squares.  Models Pillow's `rounded_rectangle` fill. -/
def inRoundedRect (x0 y0 x1 y1 rad x y : ℕ) : Prop :=
  x0 ≤ x ∧ x ≤ x1 ∧ y0 ≤ y ∧ y ≤ y1 ∧
  (x < x0 + rad ∧ y < y0 + rad → (x0 + rad - x) ^ 2 + (y0 + rad - y) ^ 2 ≤ rad ^ 2) ∧
  (x1 < x + rad ∧ y < y0 + rad → (x + rad - x1) ^ 2 + (y0 + rad - y) ^ 2 ≤ rad ^ 2) ∧
  (x < x0 + rad ∧ y1 < y + rad → (x0 + rad - x) ^ 2 + (y + rad - y1) ^ 2 ≤ rad ^ 2) ∧
  (x1 < x + rad ∧ y1 < y + rad → (x + rad - x1) ^ 2 + (y + rad - y1) ^ 2 ≤ rad ^ 2)

instance (x0 y0 x1 y1 rad x y : ℕ) : Decidable (inRoundedRect x0 y0 x1 y1 rad x y) := by
  unfold inRoundedRect
  infer_instance

/-- A filled rounded-rectangle drawing command (bounding box, corner
radius, fill color). -/
structure RRect where
  x0 : ℕ
  y0 : ℕ
  x1 : ℕ
  y1 : ℕ
  radius : ℕ
  color : Pixel
deriving DecidableEq

/-- A vertical stroke drawing command: abscissa, vertical span, color,
stroke width. -/
structure VLine where
  x : ℕ
  y0 : ℕ
  y1 : ℕ
  color : Pixel
  width : ℕ
deriving DecidableEq

/-- Pixel membership in a rounded-rectangle command. -/
def inRRect (rc : RRect) (x y : ℕ) : Prop :=
  inRoundedRect rc.x0 rc.y0 rc.x1 rc.y1 rc.radius x y

instance (rc : RRect) (x y : ℕ) : Decidable (inRRect rc x y) := by
  unfold inRRect
  infer_instance

/-- Pixel coverage of a vertical stroke of width `w`: the `w` columns
starting at `x - w / 2`, over the stroke's vertical span (endpoints
inclusive).  Models Pillow's wide-line rasterisation of a vertical
segment; a stroke of width `0` covers nothing. -/
def vlineCovers (l : VLine) (x y : ℕ) : Prop :=
  1 ≤ l.width ∧ l.x - l.width / 2 ≤ x ∧ x < l.x - l.width / 2 + l.width ∧
  l.y0 ≤ y ∧ y ≤ l.y1

instance (l : VLine) (x y : ℕ) : Decidable (vlineCovers l x y) := by
  unfold vlineCovers
  infer_instance

/-- Source: `top_color = (153, 115, 89)`. -/
def top_color : ℕ × ℕ × ℕ := (153, 115, 89)

/-- Source: `bottom_color = (115, 77, 51)`. -/
def bottom_color : ℕ × ℕ × ℕ := (115, 77, 51)

/-- One gradient channel.  Source: `int(c0 + (c1 - c0) * ratio)` with
`ratio = y / size`; since every channel decreases (`c1 ≤ c0`) and the
value is nonnegative, this is exactly `(c0 * size - (c0 - c1) * y) / size`
in integer arithmetic. -/
def gradChannel (c0 c1 y size : ℕ) : ℕ :=
  (c0 * size - (c0 - c1) * y) / size

/-- The gradient background: every row `y` is filled with the
interpolated opaque color (the script draws `(0, y)`–`(size, y)` lines
with a 3-tuple fill, so alpha is 255). -/
def gradientImage (size : ℕ) : Image :=
  ⟨size, size, fun _ y =>
    ⟨gradChannel top_color.1 bottom_color.1 y size,
     gradChannel top_color.2.1 bottom_color.2.1 y size,
     gradChannel top_color.2.2 bottom_color.2.2 y size, 255⟩⟩

/-- Source: `corner_radius = int(size * 0.22)`. -/
def corner_radius (size : ℕ) : ℕ := size * 22 / 100

/-- The single-channel rounded-corner mask: 255 inside the rounded
rectangle with bbox `[(0,0),(size,size)]` and radius
`corner_radius size`, 0 outside. -/
def maskAlpha (size x y : ℕ) : ℕ :=
  if inRoundedRect 0 0 size size (corner_radius size) x y then 255 else 0

/-- `Image.putalpha`: replace the alpha channel by the mask. -/
def putalpha (img : Image) (m : ℕ → ℕ → ℕ) : Image :=
  ⟨img.width, img.height, fun x y =>
    ⟨(img.pix x y).r, (img.pix x y).g, (img.pix x y).b, m x y⟩⟩

/-- Straight-alpha "over" compositing of a foreground pixel `fg` onto a
background pixel `bg` (`PIL.Image.alpha_composite`).  `oa` is
`255 × outAlpha`; when it is zero the result is fully transparent
black.  All divisions taken by the theorems below are exact. -/
def compositePixel (bg fg : Pixel) : Pixel :=
  let oa := fg.a * 255 + bg.a * (255 - fg.a)
  if oa = 0 then clearPx
  else
    ⟨(fg.r * fg.a * 255 + bg.r * bg.a * (255 - fg.a)) / oa,
     (fg.g * fg.a * 255 + bg.g * bg.a * (255 - fg.a)) / oa,
     (fg.b * fg.a * 255 + bg.b * bg.a * (255 - fg.a)) / oa,
     oa / 255⟩

/-- Pixel-wise "over" compositing of a foreground layer onto a
background image of the same dimensions. -/
def compositeImage (bg fg : Image) : Image :=
  ⟨bg.width, bg.height, fun x y => compositePixel (bg.pix x y) (fg.pix x y)⟩

/-- Source: `rect_size = int(size * 0.55)`. -/
def rect_size (size : ℕ) : ℕ := size * 55 / 100

/-- Source: `rect_x = (size - rect_size) // 2`. -/
def rect_x (size : ℕ) : ℕ := (size - rect_size size) / 2

/-- Source: `rect_y = (size - rect_size) // 2`. -/
def rect_y (size : ℕ) : ℕ := (size - rect_size size) / 2

/-- Source: `rect_radius = int(size * 0.095)`. -/
def rect_radius (size : ℕ) : ℕ := size * 95 / 1000

/-- The translucent white panel layer: a centred rounded rectangle
filled `(255, 255, 255, 51)` on a transparent scratch layer. -/
def panelLayer (size : ℕ) : Image :=
  ⟨size, size, fun x y =>
    if inRoundedRect (rect_x size) (rect_y size) (rect_x size + rect_size size)
        (rect_y size + rect_size size) (rect_radius size) x y then
      ⟨255, 255, 255, 51⟩
    else clearPx⟩

/-- Source: `book_width = int(size * 0.32)`. -/
def book_width (size : ℕ) : ℕ := size * 32 / 100

/-- Source: `book_height = int(size * 0.40)`. -/
def book_height (size : ℕ) : ℕ := size * 40 / 100

/-- Source: `book_x = (size - book_width) // 2`. -/
def book_x (size : ℕ) : ℕ := (size - book_width size) / 2

/-- Source: `book_y = (size - book_height) // 2`. -/
def book_y (size : ℕ) : ℕ := (size - book_height size) / 2

/-- Source: `spine_w = int(book_width * 0.18)`. -/
def spine_w (size : ℕ) : ℕ := book_width size * 18 / 100

/-- Source: `book_radius = int(size * 0.02)`. -/
def book_radius (size : ℕ) : ℕ := size * 2 / 100

/-- Source: `spine_x = book_x + spine_w`. -/
def spine_x (size : ℕ) : ℕ := book_x size + spine_w size

/-- Source: `pages_width = int(size * 0.025)`. -/
def pages_width (size : ℕ) : ℕ := size * 25 / 1000

/-- Source: `pages_x = book_x + book_width - pages_width`. -/
def pages_x (size : ℕ) : ℕ := book_x size + book_width size - pages_width size

/-- The book cover command: rounded rectangle over the book bounding
box, radius `book_radius`, filled fully opaque white. -/
def book_cover (size : ℕ) : RRect :=
  ⟨book_x size, book_y size, book_x size + book_width size,
   book_y size + book_height size, book_radius size, ⟨255, 255, 255, 255⟩⟩

/-- The `i`-th page-edge stroke (loop body of `for i in range(4)`):
abscissa `pages_x + int(i * size * 0.005)`, spanning
`book_y + int(size * 0.025)` to `book_y + book_height - int(size * 0.025)`,
color `(220, 180, 140, 120)`, width `int(size * 0.003)`. -/
def pageLine (size i : ℕ) : VLine :=
  ⟨pages_x size + i * size * 5 / 1000,
   book_y size + size * 25 / 1000,
   book_y size + book_height size - size * 25 / 1000,
   ⟨220, 180, 140, 120⟩,
   size * 3 / 1000⟩

/-- The four page-edge strokes drawn by the `range(4)` loop. -/
def page_lines (size : ℕ) : List VLine :=
  (List.range 4).map (pageLine size)

/-- The spine-indent stroke: abscissa `spine_x = book_x + spine_w`,
spanning `book_y + int(size * 0.015)` to
`book_y + book_height - int(size * 0.015)`, color `(200, 150, 100, 80)`,
width `int(size * 0.008)`. -/
def spine_line (size : ℕ) : VLine :=
  ⟨spine_x size,
   book_y size + size * 15 / 1000,
   book_y size + book_height size - size * 15 / 1000,
   ⟨200, 150, 100, 80⟩,
   size * 8 / 1000⟩

/-- Coverage by some page-edge stroke of the `range(4)` loop. -/
def pagesCovered (size x y : ℕ) : Prop :=
  ∃ i, i < 4 ∧ vlineCovers (pageLine size i) x y

instance (size x y : ℕ) : Decidable (pagesCovered size x y) :=
  decidable_of_iff
    (vlineCovers (pageLine size 0) x y ∨ vlineCovers (pageLine size 1) x y ∨
      vlineCovers (pageLine size 2) x y ∨ vlineCovers (pageLine size 3) x y)
    (by
      constructor
      · rintro (h | h | h | h)
        exacts [⟨0, by omega, h⟩, ⟨1, by omega, h⟩, ⟨2, by omega, h⟩, ⟨3, by omega, h⟩]
      · rintro ⟨i, hi, h⟩
        interval_cases i
        exacts [Or.inl h, Or.inr (Or.inl h), Or.inr (Or.inr (Or.inl h)),
          Or.inr (Or.inr (Or.inr h))])

/-- The book scratch layer (`book_overlay`): the white cover is drawn
first, then the four page-edge strokes are drawn on top of it, each
draw replacing the pixels it covers. -/
def bookLayer (size : ℕ) : Image :=
  ⟨size, size, fun x y =>
    if pagesCovered size x y then ⟨220, 180, 140, 120⟩
    else if inRRect (book_cover size) x y then (book_cover size).color
    else clearPx⟩

/-- The spine scratch layer (`spine_indent`): the single spine stroke
on a transparent layer. -/
def spineLayer (size : ℕ) : Image :=
  ⟨size, size, fun x y =>
    if vlineCovers (spine_line size) x y then ⟨200, 150, 100, 80⟩
    else clearPx⟩

/-- `create_app_icon(size)`: gradient fill, the rounded-corner mask
installed as the alpha channel, then the panel, book and spine layers
composited over the canvas in that order. -/
def create_app_icon (size : ℕ) : Image :=
  compositeImage
    (compositeImage
      (compositeImage (putalpha (gradientImage size) (maskAlpha size)) (panelLayer size))
      (bookLayer size))
    (spineLayer size)

/-! ## The exporter (`main`)

`main` generates the 1024-pixel icon, ensures the output directory
exists (`os.makedirs(..., exist_ok=True)`), writes the raster to
`AppIcon.png` and the fixed manifest to `Contents.json`.  The
filesystem is modelled as a set of existing directories plus an
association list of files; a write prepends, so a lookup sees the most
recent write (Python's `open(path, 'w')` overwrite semantics). -/

/-- Content of a file: an encoded raster or a text file. -/
inductive FileContent where
  | png : Image → FileContent
  | text : String → FileContent

/-- A filesystem state: existing directories and files. -/
structure FS where
  dirs : List String
  files : List (String × FileContent)

/-- Look up a file: the most recently written content at `p`. -/
def lookupFile (fs : FS) (p : String) : Option FileContent :=
  (fs.files.find? (fun e => decide (e.1 = p))).map (fun e => e.2)

/-- Overwrite (or create) the file at `p`. -/
def writeFile (fs : FS) (p : String) (c : FileContent) : FS :=
  ⟨fs.dirs, (p, c) :: fs.files⟩

/-- Split a character list at `/` separators. -/
def splitSlash : List Char → List Char → List (List Char)
  | [], acc => [acc.reverse]
  | c :: cs, acc => if c = ('/') then acc.reverse :: splitSlash cs [] else splitSlash cs (c :: acc)

/-- Join path components with `/` separators. -/
def joinSlash : List String → String
  | [] => ""
  | [s] => s
  | s :: ss => s ++ "/" ++ joinSlash ss

/-- All the prefixes of a `/`-separated path, shortest first:
the intermediate directories `os.makedirs` creates. -/
def ancestors (p : String) : List String :=
  (List.range ((splitSlash p.toList []).length)).map
    (fun i => joinSlash (((splitSlash p.toList []).map (fun l => String.mk l)).take (i + 1)))

/-- `os.makedirs(p, exist_ok=ok)`: raises `FileExistsError` when the
leaf directory already exists and `exist_ok` is false; otherwise
creates the directory and every intermediate directory, succeeding
silently when they are already present. -/
def makedirs (p : String) (exist_ok : Bool) (fs : FS) : Except String FS :=
  if p ∈ fs.dirs ∧ exist_ok = false then Except.error ("FileExistsError")
  else Except.ok ⟨fs.dirs ++ ancestors p, fs.files⟩

/-- Source: `output_dir = "Vellum/Assets.xcassets/AppIcon.appiconset"`. -/
def output_dir : String := "Vellum/Assets.xcassets/AppIcon.appiconset"

/-- Source: `os.path.join(output_dir, "AppIcon.png")`. -/
def output_path : String := output_dir ++ "/AppIcon.png"

/-- Source: `os.path.join(output_dir, "Contents.json")`. -/
def contents_path : String := output_dir ++ "/Contents.json"

/-- The manifest literal written by `main` (the triple-quoted
`contents_json` string of the source, verbatim). -/
def contents_json : String :=
  "\x7b\n  \"images\" : [\n    \x7b\n      \"filename\" : \"AppIcon.png\",\n      \"idiom\" : \"universal\",\n      \"platform\" : \"ios\",\n      \"size\" : \"1024x1024\"\n    \x7d\n  ],\n  \"info\" : \x7b\n    \"author\" : \"xcode\",\n    \"version\" : 1\n  \x7d\n\x7d"

/-- `main()`: build the icon, create the output directory (and
intermediates) with `exist_ok=True`, write the PNG, then write the
manifest, overwriting whatever was there. -/
def mainRun (fs : FS) : Except String FS :=
  match makedirs output_dir true fs with
  | Except.error e => Except.error e
  | Except.ok fs1 =>
      Except.ok (writeFile (writeFile fs1 output_path (FileContent.png (create_app_icon 1024)))
        contents_path (FileContent.text contents_json))

/-! ## A small JSON syntax

Used to state that the emitted manifest is well-formed JSON with the
structure the specification prescribes: a value of the inductive
syntax below whose rendering (in the source's pretty-printed style)
is exactly the emitted string. -/

/-- JSON values (the fragment the manifest needs). -/
inductive Json where
  | str : String → Json
  | num : Int → Json
  | arr : List Json → Json
  | obj : List (String × Json) → Json

/-- A run of `n` spaces. -/
def spacesStr (n : ℕ) : String := String.mk (List.replicate n (' '))

mutual

/-- Pretty-print a JSON value at a given indentation, in the exact
style of the manifest literal (two-space indent, `" : "` separator). -/
def renderJson : Json → ℕ → String
  | Json.str s, _ => "\"" ++ s ++ "\""
  | Json.num n, _ => toString n
  | Json.arr xs, ind => "[\n" ++ renderItems xs (ind + 2) ++ "\n" ++ spacesStr ind ++ "]"
  | Json.obj fs, ind => "\x7b\n" ++ renderFields fs (ind + 2) ++ "\n" ++ spacesStr ind ++ "\x7d"

/-- Render array elements, one per line, comma-separated. -/
def renderItems : List Json → ℕ → String
  | [], _ => ""
  | [j], ind => spacesStr ind ++ renderJson j ind
  | j :: js, ind => spacesStr ind ++ renderJson j ind ++ ",\n" ++ renderItems js ind

/-- Render object fields, one per line, comma-separated. -/
def renderFields : List (String × Json) → ℕ → String
  | [], _ => ""
  | [(k, v)], ind => spacesStr ind ++ "\"" ++ k ++ "\" : " ++ renderJson v ind
  | (k, v) :: fs, ind =>
      spacesStr ind ++ "\"" ++ k ++ "\" : " ++ renderJson v ind ++ ",\n" ++ renderFields fs ind

end

/-- The manifest as a JSON value: exactly one entry in `images`, with
the filename, idiom, platform and size fields, plus the `info`
object. -/
def contentsValue : Json :=
  Json.obj
    [("images", Json.arr
        [Json.obj
          [("filename", Json.str ("AppIcon.png")),
           ("idiom", Json.str ("universal")),
           ("platform", Json.str ("ios")),
           ("size", Json.str ("1024x1024"))]]),
     ("info", Json.obj
        [("author", Json.str ("xcode")),
         ("version", Json.num 1)])]

/-- The image entry of the manifest. -/
def imageEntry : Json :=
  Json.obj
    [("filename", Json.str ("AppIcon.png")),
     ("idiom", Json.str ("universal")),
     ("platform", Json.str ("ios")),
     ("size", Json.str ("1024x1024"))]

/-- The info entry of the manifest. -/
def infoEntry : Json :=
  Json.obj [("author", Json.str ("xcode")), ("version", Json.num 1)]

/-! ## Helper lemmas -/

/-- A pixel whose column (or row) is at least `rad` away from both
edges lies inside the full-canvas rounded rectangle. -/
theorem inRoundedRect_of_central (size rad x y : ℕ) (hxs : x ≤ size) (hys : y ≤ size)
    (hc : (rad ≤ x ∧ x + rad ≤ size) ∨ (rad ≤ y ∧ y + rad ≤ size)) :
    inRoundedRect 0 0 size size rad x y := by
  refine ⟨Nat.zero_le _, hxs, Nat.zero_le _, hys, ?_, ?_, ?_, ?_⟩ <;>
    · rintro ⟨h1, h2⟩
      exfalso
      omega

/-- A pixel outside the full-canvas rounded rectangle lies in one of
the four corner squares: both its column and its row are within `rad`
of an edge. -/
theorem not_inRoundedRect_extreme (size rad x y : ℕ) (hx : x < size) (hy : y < size)
    (h : ¬ inRoundedRect 0 0 size size rad x y) :
    (x < rad ∨ size < x + rad) ∧ (y < rad ∨ size < y + rad) := by
  constructor
  · by_contra hc
    push_neg at hc
    exact h (inRoundedRect_of_central size rad x y (le_of_lt hx) (le_of_lt hy)
      (Or.inl ⟨hc.1, hc.2⟩))
  · by_contra hc
    push_neg at hc
    exact h (inRoundedRect_of_central size rad x y (le_of_lt hx) (le_of_lt hy)
      (Or.inr ⟨hc.1, hc.2⟩))

/-- The translucent panel never reaches the corner squares. -/
theorem panelLayer_clear (size x y : ℕ)
    (hxe : x < size * 22 / 100 ∨ size < x + size * 22 / 100) :
    (panelLayer size).pix x y = clearPx := by
  have hnotin : ¬ inRoundedRect (rect_x size) (rect_y size) (rect_x size + rect_size size)
      (rect_y size + rect_size size) (rect_radius size) x y := by
    intro hin
    unfold inRoundedRect at hin
    obtain ⟨h1, h2, -, -, -, -, -, -⟩ := hin
    unfold rect_x rect_size at h1 h2
    omega
  simp only [panelLayer]
  rw [if_neg hnotin]

/-- The book cover and the page-edge strokes never reach the corner
squares. -/
theorem bookLayer_clear (size x y : ℕ)
    (hxe : x < size * 22 / 100 ∨ size < x + size * 22 / 100) :
    (bookLayer size).pix x y = clearPx := by
  have hpages : ¬ pagesCovered size x y := by
    rintro ⟨i, hi, hc⟩
    simp only [vlineCovers, pageLine, pages_x, pages_width, book_x, book_width, book_y,
      book_height] at hc
    obtain ⟨hw, hlo, hhi, -, -⟩ := hc
    interval_cases i <;> omega
  have hcover : ¬ inRRect (book_cover size) x y := by
    intro hin
    simp only [inRRect, book_cover, inRoundedRect] at hin
    obtain ⟨h1, h2, -, -, -, -, -, -⟩ := hin
    simp only [book_x, book_width] at h1 h2
    omega
  simp only [bookLayer]
  rw [if_neg hpages, if_neg hcover]

/-- The spine stroke never reaches the corner squares. -/
theorem spineLayer_clear (size x y : ℕ)
    (hxe : x < size * 22 / 100 ∨ size < x + size * 22 / 100) :
    (spineLayer size).pix x y = clearPx := by
  have hnotin : ¬ vlineCovers (spine_line size) x y := by
    intro hc
    simp only [vlineCovers, spine_line, spine_x, spine_w, book_x, book_width, book_y,
      book_height] at hc
    obtain ⟨hw, hlo, hhi, -, -⟩ := hc
    omega
  simp only [spineLayer]
  rw [if_neg hnotin]

/-- Compositing a fully transparent foreground onto a fully
transparent background yields a fully transparent pixel. -/
theorem compositePixel_clear (p : Pixel) (h : p.a = 0) :
    compositePixel p clearPx = clearPx := by
  unfold compositePixel clearPx
  simp [h]

/-- Evaluation of one run of the exporter: the directory and its
intermediates are present, and both artifacts are written. -/
theorem mainRun_eq (fs : FS) :
    mainRun fs = Except.ok ⟨fs.dirs ++ ancestors output_dir,
      (contents_path, FileContent.text contents_json) ::
        (output_path, FileContent.png (create_app_icon 1024)) :: fs.files⟩ := by
  unfold mainRun makedirs
  simp [writeFile]

/-- A lookup right after a write returns the written content. -/
theorem lookupFile_head (d : List String) (p : String) (c : FileContent)
    (rest : List (String × FileContent)) :
    lookupFile ⟨d, (p, c) :: rest⟩ p = some c := by
  simp [lookupFile]

/-- A lookup skips entries with a different path. -/
theorem lookupFile_tail (d : List String) (p q : String) (c : FileContent)
    (rest : List (String × FileContent)) (h : p ≠ q) :
    lookupFile ⟨d, (p, c) :: rest⟩ q = lookupFile ⟨d, rest⟩ q := by
  simp [lookupFile, List.find?_cons, h]

/-! ## Claim-side definitions

For the refinement claims C6 and C7, the drawing parameters as the
specification states them, written directly from the spec's formulas
(`0.32 × size`, `pages_x = book_x + book_width − 0.025×size`, …), to
be compared with the commands the code issues. -/

/-- The book cover as §4.1(4b) of the spec words it: a centred
bounding box of width `0.32 × size` and height `0.40 × size`, corner
radius `0.02 × size`, filled fully opaque white. -/
def bookCoverSpec (size : ℕ) : RRect :=
  ⟨(size - size * 32 / 100) / 2,
   (size - size * 40 / 100) / 2,
   (size - size * 32 / 100) / 2 + size * 32 / 100,
   (size - size * 40 / 100) / 2 + size * 40 / 100,
   size * 2 / 100,
   ⟨255, 255, 255, 255⟩⟩

/-- The page-edge strokes as the claim words them: 4 strokes at
horizontal offsets `pages_x + i × 0.005 × size` for `i` in `[0, 4)`
with `pages_x = book_x + book_width − 0.025 × size`, spanning
`book_y + 0.025×size` to `book_y + book_height − 0.025×size`, color
`(220, 180, 140, 120)`, stroke width `0.003 × size`. -/
def pageLinesSpec (size : ℕ) : List VLine :=
  (List.range 4).map (fun i =>
    ⟨(size - size * 32 / 100) / 2 + size * 32 / 100 - size * 25 / 1000 + i * size * 5 / 1000,
     (size - size * 40 / 100) / 2 + size * 25 / 1000,
     (size - size * 40 / 100) / 2 + size * 40 / 100 - size * 25 / 1000,
     ⟨220, 180, 140, 120⟩,
     size * 3 / 1000⟩)

/-- The spine stroke as the claim words it: horizontal offset
`book_x + spine_w` with `spine_w = 0.18 × book_width`, spanning
`book_y + 0.015×size` to `book_y + book_height − 0.015×size`, color
`(200, 150, 100, 80)`, stroke width `0.008 × size`. -/
def spineLineSpec (size : ℕ) : VLine :=
  ⟨(size - size * 32 / 100) / 2 + (size * 32 / 100) * 18 / 100,
   (size - size * 40 / 100) / 2 + size * 15 / 1000,
   (size - size * 40 / 100) / 2 + size * 40 / 100 - size * 15 / 1000,
   ⟨200, 150, 100, 80⟩,
   size * 8 / 1000⟩

/-! ## The claims -/

set_option maxRecDepth 100000

/-- C1: for `create_app_icon` with size 1024, the gradient background
(interpolation fraction `t = y / size`, per-channel integer
truncation) gives, in column 512: `(153, 115, 89)` on the top row
`y = 0`, `(115, 77, 51)` on the bottom row `y = 1023`, and the
midpoint color `(134, 96, 70)` on row `y = 512`; each row is opaque at
this stage. -/
theorem spec_c1 :
    (gradientImage 1024).pix 512 0 = ⟨153, 115, 89, 255⟩ ∧
    (gradientImage 1024).pix 512 1023 = ⟨115, 77, 51, 255⟩ ∧
    (gradientImage 1024).pix 512 512 = ⟨134, 96, 70, 255⟩ := by
  decide

/-- C2: in the final raster of `create_app_icon 1024`, the four corner
pixels are fully transparent (alpha 0) and the center pixel
`(512, 512)` is fully opaque (alpha 255). -/
theorem spec_c2 :
    ((create_app_icon 1024).pix 0 0).a = 0 ∧
    ((create_app_icon 1024).pix 1023 0).a = 0 ∧
    ((create_app_icon 1024).pix 0 1023).a = 0 ∧
    ((create_app_icon 1024).pix 1023 1023).a = 0 ∧
    ((create_app_icon 1024).pix 512 512).a = 255 := by
  decide

/-- C3: the rounded-corner mask (radius `0.22 × size`) is installed as
the alpha channel exactly once, after the gradient fill and before the
panel, book and spine composites, and every pixel outside the rounded
silhouette (mask value 0) is still fully transparent in the final
raster: no later layer extends outside the silhouette. -/
theorem spec_c3 (size x y : ℕ) (hx : x < size) (hy : y < size)
    (hm : maskAlpha size x y = 0) :
    ((create_app_icon size).pix x y).a = 0 ∧
      create_app_icon size =
        compositeImage (compositeImage (compositeImage
          (putalpha (gradientImage size) (maskAlpha size)) (panelLayer size))
          (bookLayer size)) (spineLayer size) := by
  refine ⟨?_, rfl⟩
  have hnot : ¬ inRoundedRect 0 0 size size (corner_radius size) x y := by
    intro h
    unfold maskAlpha at hm
    rw [if_pos h] at hm
    omega
  have hext := not_inRoundedRect_extreme size (corner_radius size) x y hx hy hnot
  have hxe : x < size * 22 / 100 ∨ size < x + size * 22 / 100 := by
    have h1 := hext.1
    unfold corner_radius at h1
    exact h1
  have hp := panelLayer_clear size x y hxe
  have hb := bookLayer_clear size x y hxe
  have hs := spineLayer_clear size x y hxe
  have hbase : ((putalpha (gradientImage size) (maskAlpha size)).pix x y).a = 0 := by
    simp only [putalpha]
    exact hm
  show (compositePixel (compositePixel (compositePixel
      ((putalpha (gradientImage size) (maskAlpha size)).pix x y)
      ((panelLayer size).pix x y)) ((bookLayer size).pix x y))
      ((spineLayer size).pix x y)).a = 0
  rw [hp, hb, hs, compositePixel_clear _ hbase, compositePixel_clear _ rfl]
  rfl

/-- Witness for C3: the concrete corner pixel `(0, 0)` of the
1024-pixel icon is outside the mask and fully transparent. -/
theorem spec_c3_witness :
    maskAlpha 1024 0 0 = 0 ∧ ((create_app_icon 1024).pix 0 0).a = 0 :=
  ⟨by decide, (spec_c3 1024 0 0 (by decide) (by decide) (by decide)).1⟩

/-- C4: for every positive size, `create_app_icon size` is a raster of
dimensions exactly `size × size`. -/
theorem spec_c4 (size : ℕ) (_h : 0 < size) :
    (create_app_icon size).width = size ∧ (create_app_icon size).height = size :=
  ⟨rfl, rfl⟩

/-- Witness for C4 at size 1024. -/
theorem spec_c4_witness :
    0 < 1024 ∧ (create_app_icon 1024).width = 1024 ∧ (create_app_icon 1024).height = 1024 :=
  ⟨by decide, spec_c4 1024 (by decide)⟩

/-- C5: `main` writes to `<dir>/Contents.json`, overwriting any
existing file, content that is the rendering of a JSON value whose
`images` array has exactly one entry — filename `AppIcon.png`, idiom
`universal`, platform `ios`, size `1024x1024` matching the generated
raster's actual pixel dimensions — together with an `info` object with
author `xcode` and version 1. -/
theorem spec_c5 (fs : FS) :
    ∃ g, mainRun fs = Except.ok g ∧
      lookupFile g contents_path = some (FileContent.text contents_json) ∧
      contents_json = renderJson contentsValue 0 ∧
      contentsValue = Json.obj [("images", Json.arr [imageEntry]), ("info", infoEntry)] ∧
      imageEntry = Json.obj
        [("filename", Json.str ("AppIcon.png")),
         ("idiom", Json.str ("universal")),
         ("platform", Json.str ("ios")),
         ("size", Json.str (Nat.repr ((create_app_icon 1024).width) ++ "x" ++
            Nat.repr ((create_app_icon 1024).height)))] ∧
      infoEntry = Json.obj [("author", Json.str ("xcode")), ("version", Json.num 1)] :=
  ⟨_, mainRun_eq fs, lookupFile_head _ _ _ _, rfl, rfl, rfl, rfl⟩

/-- C6: the book scratch layer consists of a filled fully opaque white
rounded rectangle of corner radius `0.02 × size` over a centred
bounding box of width `0.32 × size` and height `0.40 × size`, and
exactly 4 vertical page-edge strokes at the offsets, span, color
`(220, 180, 140, 120)` and width `0.003 × size` the claim states. -/
theorem spec_c6 (size : ℕ) :
    book_cover size = bookCoverSpec size ∧
    page_lines size = pageLinesSpec size ∧
    (page_lines size).length = 4 ∧
    bookLayer size =
      ⟨size, size, fun x y =>
        if pagesCovered size x y then ⟨220, 180, 140, 120⟩
        else if inRRect (book_cover size) x y then (book_cover size).color
        else clearPx⟩ :=
  ⟨rfl, rfl, rfl, rfl⟩

/-- C7: the spine layer consists of exactly one vertical stroke at
offset `book_x + spine_w` with `spine_w = 0.18 × book_width`, with the
span, color `(200, 150, 100, 80)` and width `0.008 × size` the claim
states, and the final composite applies the book layer to the canvas
first and the spine layer second. -/
theorem spec_c7 (size : ℕ) :
    spine_line size = spineLineSpec size ∧
    spineLayer size =
      ⟨size, size, fun x y =>
        if vlineCovers (spine_line size) x y then ⟨200, 150, 100, 80⟩ else clearPx⟩ ∧
    create_app_icon size =
      compositeImage
        (compositeImage
          (compositeImage (putalpha (gradientImage size) (maskAlpha size)) (panelLayer size))
          (bookLayer size))
        (spineLayer size) :=
  ⟨rfl, rfl, rfl⟩

/-- C8: the generator is deterministic — two runs from arbitrary
initial filesystem states both succeed and store the same raster term
(hence pixel-for-pixel identical, of dimensions 1024 × 1024) and
byte-for-byte identical `Contents.json` content, regardless of any
prior artifacts, which are overwritten. -/
theorem spec_c8 (fs1 fs2 : FS) :
    ∃ g1 g2, mainRun fs1 = Except.ok g1 ∧ mainRun fs2 = Except.ok g2 ∧
      lookupFile g1 output_path = some (FileContent.png (create_app_icon 1024)) ∧
      lookupFile g2 output_path = some (FileContent.png (create_app_icon 1024)) ∧
      lookupFile g1 contents_path = some (FileContent.text contents_json) ∧
      lookupFile g2 contents_path = some (FileContent.text contents_json) ∧
      (create_app_icon 1024).width = 1024 ∧ (create_app_icon 1024).height = 1024 := by
  refine ⟨_, _, mainRun_eq fs1, mainRun_eq fs2, ?_, ?_, ?_, ?_, rfl, rfl⟩
  · rw [lookupFile_tail _ _ _ _ _ (by decide)]
    exact lookupFile_head _ _ _ _
  · rw [lookupFile_tail _ _ _ _ _ (by decide)]
    exact lookupFile_head _ _ _ _
  · exact lookupFile_head _ _ _ _
  · exact lookupFile_head _ _ _ _

/-- C9: from any initial state — in particular one where the output
directory is missing — `main` succeeds, the output directory and both
intermediate directories exist afterwards, the PNG is written, and a
second run against the now-existing directory also succeeds. -/
theorem spec_c9 (fs : FS) :
    ∃ g g2, mainRun fs = Except.ok g ∧
      ("Vellum" : String) ∈ g.dirs ∧
      ("Vellum/Assets.xcassets" : String) ∈ g.dirs ∧
      output_dir ∈ g.dirs ∧
      lookupFile g output_path = some (FileContent.png (create_app_icon 1024)) ∧
      mainRun g = Except.ok g2 := by
  refine ⟨_, _, mainRun_eq fs, ?_, ?_, ?_, ?_, mainRun_eq _⟩
  · exact List.mem_append_right _ (by decide)
  · exact List.mem_append_right _ (by decide)
  · exact List.mem_append_right _ (by decide)
  · rw [lookupFile_tail _ _ _ _ _ (by decide)]
    exact lookupFile_head _ _ _ _

/-- C10: for size 1024, the center pixel `(512, 512)` of the final
raster is exactly opaque white `(255, 255, 255, 255)`: the fully
opaque book cover covers the center and neither the spine stroke nor
the page-edge strokes reach the center column. -/
theorem spec_c10 : (create_app_icon 1024).pix 512 512 = ⟨255, 255, 255, 255⟩ := by
  decide
